import Mathlib

/-!
Shallow embedding of `src/main.py`, a pygame dual-minigame arcade
application: an obstacle-avoidance game (Titanic) and a sequence-recall
memory game (Memory), driven per frame by up/down input booleans.

Conventions of the embedding:
* pygame `Rect`s carry integer `x, y, w, h`; `colliderect` is a strict
  overlap test on which zero-sized rects never collide, and `inflate`
  keeps the center using C integer division (truncation toward zero).
* Python floats are modelled as exact rationals `ℚ`.  `int(...)` on a
  float truncates toward zero (`pyInt`); Python `round` rounds half to
  even (`pyRound`); Python `//` is floor division, which on a positive
  divisor agrees with Lean's `/` on `Int`.
* The float constants `ICEBERG_HITBOX_SCALE_X = 0.01` and
  `PLAYER_HITBOX_SHRINK = 0.2` are modelled by the exact rationals
  `1/100` and `1/5`: for every width/height this program feeds them
  (obstacle width 120, sprite sizes below 1000), `int(v * 0.01)` and
  `int(v * 0.2)` computed in binary floating point coincide with the
  rational truncations used here.
* Randomness (`random.randint`, `random.uniform`, `random.choice`) is
  injected: each tick receives the values the random source would
  produce (`gapY`, `starPick`, `seqChoice`).
* The per-frame logic of `main` (lines 379-577) is the function
  `logic_tick`; the KEYDOWN handling of the two game-over states
  (lines 390-415) is `keydown_tick`.  Rendering, asset loading and the
  serial device are outside the embedded core.
-/

/- The Batteries rational primitives are marked irreducible, which stops
   `decide` from evaluating concrete game states; restore default
   reducibility so closed-form scenario checks go through the kernel. -/

set_option allowUnsafeReducibility true in
attribute [semireducible] Rat.mul Rat.add Rat.div Rat.sub Rat.neg Rat.inv

namespace PygameRaspberry

/- Configuration constants, src/main.py lines 12-51. -/

def WIDTH : Int := 960

def HEIGHT : Int := 540

def PIPE_WIDTH : Int := 120

def PIPE_GAP_BASE : Int := 220

def PIPE_BASE_SPEED : ℚ := 4

def PIPE_SPAWN_BASE_MS : Int := 1500

def PLAYER_SPEED : ℚ := 9 / 2

def PLAYER_MARGIN_TOP_BOTTOM : Int := 20

def INITIAL_LIVES : Int := 3

def ICEBERG_HITBOX_SCALE_X : ℚ := 1 / 100

def PLAYER_HITBOX_SHRINK : ℚ := 1 / 5

def MEM_SHOW_MS : Int := 650

def MEM_GAP_MS : Int := 350

def MEM_DEBOUNCE_MS : Int := 200

/-- The star sprite is loaded scaled to 32x32 (line 345). -/
def STAR_SIZE : Int := 32

/-- Python `int(...)` applied to an exact rational: truncation toward zero. -/
def pyInt (q : ℚ) : Int := if 0 ≤ q then ⌊q⌋ else ⌈q⌉

/-- Python 3 `round` on an exact rational: round half to even. -/
def pyRound (q : ℚ) : Int :=
  let f := ⌊q⌋
  let r := q - (f : ℚ)
  if r < 1 / 2 then f
  else if 1 / 2 < r then f + 1
  else if f % 2 = 0 then f else f + 1

/-- pygame `Rect`: integer position and size. -/
structure Rect where
  x : Int
  y : Int
  w : Int
  h : Int
deriving DecidableEq, Repr

def Rect.top (r : Rect) : Int := r.y

def Rect.bottom (r : Rect) : Int := r.y + r.h

/-- pygame `Rect.inflate(dx, dy)`: grow around the center; the offset uses
    C integer division, which truncates toward zero. -/
def Rect.inflate (r : Rect) (dx dy : Int) : Rect :=
  { x := r.x - Int.tdiv dx 2, y := r.y - Int.tdiv dy 2, w := r.w + dx, h := r.h + dy }

/-- pygame `Rect.colliderect`: strict overlap; rects of zero width or
    height never collide. -/
def Rect.colliderect (a b : Rect) : Bool :=
  decide (b.x < a.x + a.w) && decide (a.x < b.x + b.w) &&
  decide (b.y < a.y + a.h) && decide (a.y < b.y + b.h) &&
  decide (a.w ≠ 0) && decide (a.h ≠ 0) && decide (b.w ≠ 0) && decide (b.h ≠ 0)

/- Player (the ship avatar), src/main.py lines 65-90. -/

structure Player where
  x : Int
  y : Int
  w : Int
  h : Int
deriving DecidableEq, Repr

def Player.rect (p : Player) : Rect := ⟨p.x, p.y, p.w, p.h⟩

/-- `Player.update`: vertical integration then clamping to the margins
    (lines 70-81).  `rect.y += int(round(dy))`, then the `top` setter and
    the `bottom` setter clamp in that order. -/
def Player.update (p : Player) (move_up move_down : Bool) (dt : ℚ) : Player :=
  let dy : ℚ := (if move_up then -(PLAYER_SPEED * dt) else 0) +
                (if move_down then PLAYER_SPEED * dt else 0)
  let y1 := p.y + pyRound dy
  let y2 := if y1 < PLAYER_MARGIN_TOP_BOTTOM then PLAYER_MARGIN_TOP_BOTTOM else y1
  let y3 := if y2 + p.h > HEIGHT - PLAYER_MARGIN_TOP_BOTTOM
            then HEIGHT - PLAYER_MARGIN_TOP_BOTTOM - p.h else y2
  { p with y := y3 }

/-- `Player.collision_rect` (lines 86-90): the full rect shrunk by
    `int(w * 0.2)` horizontally and `int(h * 0.2)` vertically via
    `inflate`. -/
def Player.collision_rect (p : Player) : Rect :=
  let shrink_w := pyInt ((p.w : ℚ) * PLAYER_HITBOX_SHRINK)
  let shrink_h := pyInt ((p.h : ℚ) * PLAYER_HITBOX_SHRINK)
  Rect.inflate p.rect (-shrink_w) (-shrink_h)

/- IcebergPair (an obstacle pair), src/main.py lines 93-135. -/

structure IcebergPair where
  x : ℚ
  gap_y : ℚ
  width : Int
  gap : Int
  passed : Bool := false
  star_y : Option ℚ := none
  star_collected : Bool := false
deriving DecidableEq, Repr

/-- `IcebergPair.rects` (lines 103-109): full drawn top and bottom rects. -/
def IcebergPair.rects (ib : IcebergPair) : Rect × Rect :=
  let top_height := pyInt (ib.gap_y - (ib.gap : ℚ) / 2)
  let bottom_y := pyInt (ib.gap_y + (ib.gap : ℚ) / 2)
  let bottom_height := HEIGHT - bottom_y
  (⟨pyInt ib.x, 0, ib.width, top_height⟩,
   ⟨pyInt ib.x, bottom_y, ib.width, bottom_height⟩)

/-- The inner `shrink_x` of `collision_rects` (lines 114-119): shrink the
    width to `int(w * 0.01)`, centered via `inflate`; if that is `≤ 0`
    the rect is returned unshrunk. -/
def shrink_x (rect : Rect) : Rect :=
  let new_w := pyInt ((rect.w : ℚ) * ICEBERG_HITBOX_SCALE_X)
  if new_w ≤ 0 then rect
  else Rect.inflate rect (-(rect.w - new_w)) 0

/-- `IcebergPair.collision_rects` (lines 111-121). -/
def IcebergPair.collision_rects (ib : IcebergPair) : Rect × Rect :=
  (shrink_x ib.rects.1, shrink_x ib.rects.2)

/-- `IcebergPair.update` (lines 123-124): horizontal advancement. -/
def IcebergPair.update (ib : IcebergPair) (speed dt : ℚ) : IcebergPair :=
  { ib with x := ib.x - speed * dt }

/-- `IcebergPair.is_off_screen` (lines 126-127). -/
def IcebergPair.is_off_screen (ib : IcebergPair) : Bool :=
  decide (ib.x + (ib.width : ℚ) < -10)

/-- `IcebergPair.star_rect` (lines 129-135), with the 32x32 star sprite;
    the pygame `centerx`/`centery` setters subtract half the size with C
    truncating division. -/
def IcebergPair.star_rect (ib : IcebergPair) : Option Rect :=
  match ib.star_y with
  | none => none
  | some sy =>
    if ib.star_collected then none
    else
      let cx := pyInt (ib.x + (ib.width : ℚ) / 2)
      let cy := pyInt sy
      some ⟨cx - Int.tdiv STAR_SIZE 2, cy - Int.tdiv STAR_SIZE 2, STAR_SIZE, STAR_SIZE⟩

/-- `compute_level` (lines 151-152).  Python `//` on the positive divisor
    5 is Lean's `Int` division. -/
def compute_level (score : Int) : Int := max 1 (min 10 (score / 5 + 1))

/-- `create_player` (lines 218-226): the ship sprite is scaled to height
    64, its width `int(64 * aspect)` depends on the loaded image and is
    the parameter `shipW`; the rect is centered at
    `(WIDTH // 4, HEIGHT // 2)` via the pygame center setters. -/
def create_player (shipW : Int) : Player :=
  { x := WIDTH / 4 - Int.tdiv shipW 2, y := HEIGHT / 2 - Int.tdiv 64 2,
    w := shipW, h := 64 }

/-- `create_iceberg_pair` (lines 229-247); `starPick` is the value the
    `random.uniform(top_limit, bottom_limit)` draw would produce. -/
def create_iceberg_pair (gap_y : ℚ) (gap : Int) (starPick : ℚ) : IcebergPair :=
  let star_margin : ℚ := ((STAR_SIZE / 2 + 8 : Int) : ℚ)
  let top_limit := gap_y - (gap : ℚ) / 2 + star_margin
  let bottom_limit := gap_y + (gap : ℚ) / 2 - star_margin
  let sy := if top_limit ≥ bottom_limit then gap_y else starPick
  { x := ((WIDTH + 40 : Int) : ℚ), gap_y := gap_y, width := PIPE_WIDTH,
    gap := gap, passed := false, star_y := some sy, star_collected := false }

/- The global state machine of `main`, src/main.py lines 330-577. -/

/-- The values of the string variable `state`. -/
inductive Mode where
  | mode_select
  | titanic_menu
  | titanic_playing
  | titanic_game_over
  | memory_ready
  | memory_show
  | memory_input
  | memory_success
  | memory_game_over
deriving DecidableEq, Repr

/-- The sequence symbols, the strings `U` and `D` in the source. -/
inductive Sym where
  | U
  | D
deriving DecidableEq, Repr

/-- The KEYDOWN keys the game-over branches inspect (lines 390-415). -/
inductive Key where
  | space
  | enter
  | r
  | m
  | other
deriving DecidableEq, Repr

/-- All mutable frame-to-frame variables of `main` (lines 360-376). -/
structure GState where
  state : Mode
  player : Player
  icebergs : List IcebergPair
  score : Int
  next_spawn : ℚ
  lives_left : Int
  mem_level : Int
  mem_best_level : Int
  mem_sequence : List Sym
  mem_show_index : Int
  mem_showing_arrow : Bool
  mem_last_change : Int
  mem_player_inputs : List Sym
  mem_last_input_time : Int
  mem_mismatch_positions : List Nat
  prev_move_up : Bool
  prev_move_down : Bool
deriving DecidableEq, Repr

/-- `reset_titanic` (lines 250-256): fresh player, no obstacles, score 0,
    spawn deadline `now + 1000`, full lives. -/
def reset_titanic (s : GState) (shipW now : Int) : GState :=
  { s with player := create_player shipW, icebergs := [], score := 0,
           next_spawn := ((now + 1000 : Int) : ℚ), lives_left := INITIAL_LIVES }

/-- The memory-variable reset block, written out twice in the source
    (lines 405-412 and 442-449); note `mem_best_level` is not touched. -/
def reset_memory (s : GState) : GState :=
  { s with mem_level := 1, mem_sequence := [], mem_show_index := 0,
           mem_showing_arrow := false, mem_last_change := 0,
           mem_player_inputs := [], mem_last_input_time := 0,
           mem_mismatch_positions := [] }

/-- The KEYDOWN event handling of the two game-over states
    (lines 394-415). -/
def keydown_tick (s : GState) (shipW now : Int) (k : Key) : GState :=
  if s.state = Mode.titanic_game_over then
    if k = Key.space ∨ k = Key.enter ∨ k = Key.r then
      { reset_titanic s shipW now with state := Mode.titanic_playing }
    else if k = Key.m then { s with state := Mode.mode_select }
    else s
  else if s.state = Mode.memory_game_over then
    if k = Key.space ∨ k = Key.enter ∨ k = Key.r then
      { reset_memory s with state := Mode.memory_ready }
    else if k = Key.m then { s with state := Mode.mode_select }
    else s
  else s

/-- The `mode_select` branch (lines 434-450): it reads the held
    `move_up` / `move_down` levels, not the rising edges. -/
def mode_select_tick (s : GState) (shipW now : Int) (move_up move_down : Bool) : GState :=
  if move_up then
    { reset_titanic s shipW now with state := Mode.titanic_menu }
  else if move_down then
    { reset_memory s with state := Mode.memory_ready }
  else s

/- Difficulty parameters recomputed each playing tick (lines 464-466);
   the float literal 0.45 is the exact rational 45/100 here. -/

def titanic_gap (level : Int) : Int :=
  max 140 (PIPE_GAP_BASE - (level - 1) * 8)

def titanic_speed (level : Int) : ℚ :=
  PIPE_BASE_SPEED + ((level - 1 : Int) : ℚ) * (45 / 100)

def titanic_spawn_interval_ms (level : Int) : Int :=
  max 700 (PIPE_SPAWN_BASE_MS - (level - 1) * 80)

/-- The out-of-bounds part of the hit test (lines 487-488):
    `player.rect.top <= 0 or player.rect.bottom >= HEIGHT`. -/
def out_of_bounds_hit (p : Player) : Bool :=
  decide (p.rect.top ≤ 0) || decide (p.rect.bottom ≥ HEIGHT)

/-- The star-collection pass (lines 500-505): every uncollected star whose
    rect touches the player's full rect is marked collected, +1 point. -/
def collect_stars (p : Player) : List IcebergPair → Int → List IcebergPair × Int
  | [], score => ([], score)
  | ib :: rest, score =>
    let (ib2, score2) :=
      match ib.star_rect with
      | some r =>
        if Rect.colliderect p.rect r then
          ({ ib with star_collected := true }, score + 1)
        else (ib, score)
      | none => (ib, score)
    let (rest2, score3) := collect_stars p rest score2
    (ib2 :: rest2, score3)

/-- The `titanic_playing` branch (lines 457-505).  `gapY` is the value
    `random.randint(140, HEIGHT - 140)` would produce and `starPick` the
    `random.uniform` draw inside `create_iceberg_pair`. -/
def titanic_playing_tick (s : GState) (shipW now : Int) (move_up move_down : Bool)
    (dt : ℚ) (gapY : Int) (starPick : ℚ) : GState :=
  let level := compute_level s.score
  let player := s.player.update move_up move_down dt
  let gap := titanic_gap level
  let speed := titanic_speed level
  let spawn_interval_ms := titanic_spawn_interval_ms level
  let (ibs0, next_spawn0) :=
    if ((now : ℚ)) ≥ s.next_spawn then
      (s.icebergs ++ [create_iceberg_pair ((gapY : Int) : ℚ) gap starPick],
       ((now + spawn_interval_ms : Int) : ℚ))
    else (s.icebergs, s.next_spawn)
  let ibs1 := ibs0.map (fun ib => ib.update speed dt)
  let ibs2 := ibs1.filter (fun ib => !ib.is_off_screen)
  let pcb := player.collision_rect
  let iceberg_hit := ibs2.any (fun ib =>
    Rect.colliderect pcb ib.collision_rects.1 ||
    Rect.colliderect pcb ib.collision_rects.2)
  let hit := if !iceberg_hit && out_of_bounds_hit player then true else iceberg_hit
  if hit then
    let lives := s.lives_left - 1
    if lives ≤ 0 then
      { s with state := Mode.titanic_game_over, player := player,
               icebergs := ibs2, next_spawn := next_spawn0, lives_left := lives }
    else
      { s with player := create_player shipW, icebergs := [],
               next_spawn := ((now + 1000 : Int) : ℚ), lives_left := lives }
  else
    let (ibs3, score2) := collect_stars player ibs2 s.score
    { s with player := player, icebergs := ibs3, score := score2,
             next_spawn := next_spawn0 }

/-- The `memory_ready` branch (lines 511-519): generate a fresh sequence
    of length `mem_level`; `seqChoice i` is what the i-th
    `random.choice(["U", "D"])` would produce. -/
def memory_ready_tick (s : GState) (now : Int) (seqChoice : Nat → Sym) : GState :=
  { s with mem_sequence := (List.range s.mem_level.toNat).map seqChoice,
           mem_show_index := 0, mem_showing_arrow := true, mem_last_change := now,
           mem_player_inputs := [], mem_mismatch_positions := [],
           state := Mode.memory_show }

/-- The `memory_show` branch (lines 521-535). -/
def memory_show_tick (s : GState) (now : Int) : GState :=
  if s.mem_showing_arrow then
    if now - s.mem_last_change ≥ MEM_SHOW_MS then
      { s with mem_showing_arrow := false, mem_last_change := now }
    else s
  else if now - s.mem_last_change ≥ MEM_GAP_MS then
    let idx := s.mem_show_index + 1
    if idx ≥ (s.mem_sequence.length : Int) then
      { s with mem_show_index := idx, mem_player_inputs := [],
               state := Mode.memory_input }
    else
      { s with mem_show_index := idx, mem_showing_arrow := true,
               mem_last_change := now }
  else s

/-- The mismatch list of a completed round (lines 552-556):
    `[i for i in range(len(seq)) if inputs[i] != seq[i]]`.  The `getD`
    defaults are never reached when `inputs` is at least as long as
    `seq`, matching the Python indexing. -/
def memory_mismatch (inputs seq : List Sym) : List Nat :=
  (List.range seq.length).filter
    (fun i => decide (inputs.getD i Sym.U ≠ seq.getD i Sym.U))

/-- The `memory_input` branch (lines 537-568): debounced edge-triggered
    collection, evaluation once the buffer reaches the sequence length. -/
def memory_input_tick (s : GState) (now : Int) (pressed_up pressed_down : Bool) : GState :=
  let step : Option Sym :=
    if now - s.mem_last_input_time ≥ MEM_DEBOUNCE_MS then
      if pressed_up then some Sym.U
      else if pressed_down then some Sym.D
      else none
    else none
  match step with
  | none => s
  | some c =>
    let inputs := s.mem_player_inputs ++ [c]
    if inputs.length ≥ s.mem_sequence.length then
      let mismatch := memory_mismatch inputs s.mem_sequence
      if mismatch ≠ [] then
        let last_success0 := s.mem_level - 1
        let last_success := if last_success0 < 0 then 0 else last_success0
        { s with mem_last_input_time := now, mem_player_inputs := inputs,
                 mem_mismatch_positions := mismatch,
                 mem_best_level := max s.mem_best_level last_success,
                 state := Mode.memory_game_over }
      else
        { s with mem_last_input_time := now, mem_player_inputs := inputs,
                 mem_best_level := max s.mem_best_level s.mem_level,
                 mem_level := s.mem_level + 1, mem_last_change := now,
                 state := Mode.memory_success }
    else
      { s with mem_last_input_time := now, mem_player_inputs := inputs }

/-- The `memory_success` branch (lines 570-574). -/
def memory_success_tick (s : GState) (now : Int) : GState :=
  if now - s.mem_last_change ≥ 1000 then { s with state := Mode.memory_ready }
  else s

/-- One frame of the game-state logic (lines 429-577 plus the
    prev-press update of lines 890-891): rising edges are derived from
    the previous frame's levels, the active state's branch runs, and the
    previous-press flags are updated.  `key_space` / `key_enter` are the
    held keyboard keys read by the `titanic_menu` branch (line 454). -/
def logic_tick (s : GState) (shipW now : Int)
    (move_up move_down key_space key_enter : Bool)
    (dt : ℚ) (gapY : Int) (starPick : ℚ) (seqChoice : Nat → Sym) : GState :=
  let pressed_up := move_up && !s.prev_move_up
  let pressed_down := move_down && !s.prev_move_down
  let s2 :=
    match s.state with
    | Mode.mode_select => mode_select_tick s shipW now move_up move_down
    | Mode.titanic_menu =>
        if key_space || key_enter || move_up || move_down then
          { s with state := Mode.titanic_playing }
        else s
    | Mode.titanic_playing =>
        titanic_playing_tick s shipW now move_up move_down dt gapY starPick
    | Mode.titanic_game_over => s
    | Mode.memory_ready => memory_ready_tick s now seqChoice
    | Mode.memory_show => memory_show_tick s now
    | Mode.memory_input => memory_input_tick s now pressed_up pressed_down
    | Mode.memory_success => memory_success_tick s now
    | Mode.memory_game_over => s
  { s2 with prev_move_up := move_up, prev_move_down := move_down }

/- Concrete states used to exercise the tick functions. -/

/-- A 100x64 ship avatar at the default spawn position. -/
def basePlayer : Player := { x := 200, y := 238, w := 100, h := 64 }

/-- A quiescent global state: mode selector, nothing pending, spawn
    deadline far in the future. -/
def baseState : GState :=
  { state := Mode.mode_select, player := basePlayer, icebergs := [], score := 0,
    next_spawn := 99999, lives_left := 3, mem_level := 1, mem_best_level := 0,
    mem_sequence := [], mem_show_index := 0, mem_showing_arrow := false,
    mem_last_change := 0, mem_player_inputs := [], mem_last_input_time := 0,
    mem_mismatch_positions := [], prev_move_up := false, prev_move_down := false }

/-- A random source that always chooses the up arrow. -/
def constU : Nat → Sym := fun _ => Sym.U

/-- An obstacle pair of nominal width 120 at x = 400 with a 200px gap
    centered at y = 270; its star is already collected.  Its collision
    slits sit at x = 459, width 1. -/
def slitIb : IcebergPair :=
  { x := 400, gap_y := 270, width := 120, gap := 200, passed := false,
    star_y := some 270, star_collected := true }

/-- Playing state whose avatar overlaps `slitIb`'s drawn width
    (shrunk rect spans x 379..459) but not its 1px collision slit. -/
def grazeState : GState :=
  { baseState with state := Mode.titanic_playing,
                   player := { x := 369, y := 100, w := 100, h := 64 },
                   icebergs := [slitIb] }

/-- Playing state whose avatar's shrunk rect (x 400..480) crosses
    `slitIb`'s collision slit at x = 459. -/
def slitHitState : GState :=
  { baseState with state := Mode.titanic_playing,
                   player := { x := 390, y := 100, w := 100, h := 64 },
                   icebergs := [slitIb] }

/-- Playing state with the avatar already resting on the top margin. -/
def pinnedState : GState :=
  { baseState with state := Mode.titanic_playing,
                   player := { x := 200, y := 20, w := 100, h := 64 } }

/-- Memory input phase with target sequence [U, D, U] and an empty
    buffer. -/
def memInputState : GState :=
  { baseState with state := Mode.memory_input, mem_level := 3,
                   mem_sequence := [Sym.U, Sym.D, Sym.U] }

/-- Memory input phase with sequence [U, D, U] and two `U`s already
    buffered: the next accepted press completes the round. -/
def memRoundState : GState :=
  { baseState with state := Mode.memory_input, mem_level := 3,
                   mem_sequence := [Sym.U, Sym.D, Sym.U],
                   mem_player_inputs := [Sym.U, Sym.U] }

/-- Mode selector with a nonzero Titanic score and Memory best level
    carried over from earlier sessions. -/
def selectorScoreState : GState :=
  { baseState with state := Mode.mode_select, score := 5, mem_best_level := 7 }

/-- Mode selector entered while the up input is already held (the
    previous frame also saw it, so there is no rising edge). -/
def selectorHeldState : GState :=
  { baseState with state := Mode.mode_select, prev_move_up := true }

/-- A logic tick with only the memory-relevant inputs varying. -/
def mtick (s : GState) (now : Int) (mu md : Bool) : GState :=
  logic_tick s 100 now mu md false false 0 0 0 constU

/- Helper lemmas. -/

/-- `Player.update` never changes the avatar's height. -/
theorem player_update_h (p : Player) (mu md : Bool) (dt : ℚ) :
    (p.update mu md dt).h = p.h := rfl

/-- After `Player.update` the rect lies in the clamp band, provided the
    avatar is short enough for both clamps to be consistent. -/
theorem player_update_band (p : Player) (mu md : Bool) (dt : ℚ)
    (hh : p.h ≤ HEIGHT - 2 * PLAYER_MARGIN_TOP_BOTTOM) :
    PLAYER_MARGIN_TOP_BOTTOM ≤ (p.update mu md dt).rect.top ∧
    (p.update mu md dt).rect.bottom ≤ HEIGHT - PLAYER_MARGIN_TOP_BOTTOM := by
  simp only [Player.update, Player.rect, Rect.top, Rect.bottom,
    HEIGHT, PLAYER_MARGIN_TOP_BOTTOM] at hh ⊢
  split_ifs <;> constructor <;> omega

/-- Iterated `Player.update` over a list of (move_up, move_down, dt)
    samples, one per tick. -/
def apply_updates (p : Player) : List (Bool × Bool × ℚ) → Player
  | [] => p
  | m :: rest => apply_updates (p.update m.1 m.2.1 m.2.2) rest

/- Claim theorems. -/

/-- C6: for every non-negative score, `compute_level` is
    `clamp(score // 5 + 1, 1, 10)` with floor division: non-decreasing
    in the score, always within [1, 10], equal to k+1 at score 5k for
    0 ≤ k ≤ 9, and saturated at 10 for every score ≥ 45. -/
theorem compute_level_spec (score score2 k : Int)
    (hs : 0 ≤ score) (hmono : score ≤ score2) (hk0 : 0 ≤ k) (hk9 : k ≤ 9) :
    compute_level score = max 1 (min 10 (score / 5 + 1)) ∧
    1 ≤ compute_level score ∧ compute_level score ≤ 10 ∧
    compute_level score ≤ compute_level score2 ∧
    compute_level (5 * k) = k + 1 ∧
    (45 ≤ score → compute_level score = 10) := by
  unfold compute_level
  refine ⟨rfl, ?_, ?_, ?_, ?_, ?_⟩ <;> omega

theorem compute_level_spec_witness :
    compute_level 0 = max 1 (min 10 (0 / 5 + 1)) ∧
    1 ≤ compute_level 0 ∧ compute_level 0 ≤ 10 ∧
    compute_level 0 ≤ compute_level 7 ∧
    compute_level (5 * 9) = 9 + 1 ∧
    (45 ≤ (0 : Int) → compute_level 0 = 10) :=
  compute_level_spec 0 7 9 (by decide) (by decide) (by decide) (by decide)

/-- C7: the difficulty parameters recomputed each playing tick follow
    the exact formulas gap(L) = max(140, 220 − (L−1)·8),
    speed(L) = 4 + (L−1)·0.45 and
    spawnInterval(L) = max(700, 1500 − (L−1)·80); gap is at least 140
    and speed at least 4, and at level 2 they are 212, 4.45 and 1420. -/
theorem titanic_difficulty_spec (L : Int) (hL1 : 1 ≤ L) (hL10 : L ≤ 10) :
    titanic_gap L = max 140 (220 - (L - 1) * 8) ∧
    titanic_speed L = 4 + ((L - 1 : Int) : ℚ) * (45 / 100) ∧
    titanic_spawn_interval_ms L = max 700 (1500 - (L - 1) * 80) ∧
    140 ≤ titanic_gap L ∧ (4 : ℚ) ≤ titanic_speed L ∧
    titanic_gap 2 = 212 ∧ titanic_speed 2 = 445 / 100 ∧
    titanic_spawn_interval_ms 2 = 1420 := by
  refine ⟨rfl, rfl, rfl, ?_, ?_, by decide, by decide, by decide⟩
  · unfold titanic_gap PIPE_GAP_BASE
    omega
  · unfold titanic_speed PIPE_BASE_SPEED
    have h0 : (0 : ℚ) ≤ ((L - 1 : Int) : ℚ) := by
      exact_mod_cast (by omega : (0 : Int) ≤ L - 1)
    nlinarith [mul_nonneg h0 (by norm_num : (0 : ℚ) ≤ 45 / 100)]

theorem titanic_difficulty_spec_witness :
    titanic_gap 2 = max 140 (220 - (2 - 1) * 8) ∧
    titanic_speed 2 = 4 + ((2 - 1 : Int) : ℚ) * (45 / 100) ∧
    titanic_spawn_interval_ms 2 = max 700 (1500 - (2 - 1) * 80) ∧
    140 ≤ titanic_gap 2 ∧ (4 : ℚ) ≤ titanic_speed 2 ∧
    titanic_gap 2 = 212 ∧ titanic_speed 2 = 445 / 100 ∧
    titanic_spawn_interval_ms 2 = 1420 :=
  titanic_difficulty_spec 2 (by decide) (by decide)

/-- C8: over any sequence of `Player.update` calls with arbitrary
    move_up/move_down flags and non-negative dt, the avatar's rect ends
    (and hence stays, applying this to every prefix) inside the vertical
    band [20, HEIGHT − 20]: top ≥ 20 and bottom ≤ HEIGHT − 20.  The
    height bound holds for the game's 64px avatar. -/
theorem avatar_stays_in_band (p : Player) (moves : List (Bool × Bool × ℚ))
    (hh : p.h ≤ HEIGHT - 2 * PLAYER_MARGIN_TOP_BOTTOM)
    (hdt : ∀ m ∈ moves, 0 ≤ m.2.2) (hne : moves ≠ []) :
    PLAYER_MARGIN_TOP_BOTTOM ≤ (apply_updates p moves).rect.top ∧
    (apply_updates p moves).rect.bottom ≤ HEIGHT - PLAYER_MARGIN_TOP_BOTTOM := by
  induction moves generalizing p with
  | nil => exact absurd rfl hne
  | cons m rest ih =>
    rcases rest with _ | ⟨m2, rest2⟩
    · exact player_update_band p m.1 m.2.1 m.2.2 hh
    · have hh2 : (p.update m.1 m.2.1 m.2.2).h ≤
          HEIGHT - 2 * PLAYER_MARGIN_TOP_BOTTOM := by
        rw [player_update_h]; exact hh
      exact ih (p.update m.1 m.2.1 m.2.2) hh2
        (fun x hx => hdt x (List.mem_cons_of_mem m hx))
        (List.cons_ne_nil m2 rest2)

theorem avatar_stays_in_band_witness :
    basePlayer.h ≤ HEIGHT - 2 * PLAYER_MARGIN_TOP_BOTTOM ∧
    PLAYER_MARGIN_TOP_BOTTOM ≤
      (apply_updates basePlayer [(true, false, 1)]).rect.top ∧
    (apply_updates basePlayer [(true, false, 1)]).rect.bottom ≤
      HEIGHT - PLAYER_MARGIN_TOP_BOTTOM :=
  ⟨by decide,
   avatar_stays_in_band basePlayer [(true, false, 1)] (by decide)
     (by intro m hm; simp at hm; rw [hm]; decide) (by simp)⟩

/-- C3 (counterexample): a tick on which the clamp pins the avatar
    against the top margin (the unclamped y would be 16 < 20) registers
    no hit: lives stay at 3 and the state stays `titanic_playing`,
    because the test compares against the screen edge (top ≤ 0), which a
    clamped avatar never reaches. -/
theorem pinned_avatar_no_hit :
    pinnedState.player.y = PLAYER_MARGIN_TOP_BOTTOM ∧
    pinnedState.player.y + pyRound (-(PLAYER_SPEED * 1)) <
      PLAYER_MARGIN_TOP_BOTTOM ∧
    (logic_tick pinnedState 100 0 true false false false 1 270 0 constU).player.y
      = PLAYER_MARGIN_TOP_BOTTOM ∧
    (logic_tick pinnedState 100 0 true false false false 1 270 0 constU).lives_left
      = 3 ∧
    (logic_tick pinnedState 100 0 true false false false 1 270 0 constU).state
      = Mode.titanic_playing := by decide

/-- C3 (amended): the out-of-bounds test conditions on equality at the
    screen edges (top ≤ 0 or bottom ≥ HEIGHT), not at the clamp
    margins; since `Player.update` clamps the avatar into
    [20, HEIGHT − 20] before the test runs, the test never fires on any
    tick — it is dead code — although it would fire for a rect placed at
    the screen edge directly. -/
theorem out_of_bounds_test_never_fires (p : Player) (mu md : Bool) (dt : ℚ)
    (hh : p.h ≤ HEIGHT - 2 * PLAYER_MARGIN_TOP_BOTTOM) :
    out_of_bounds_hit (p.update mu md dt) = false ∧
    out_of_bounds_hit { x := 0, y := 0, w := 100, h := 64 } = true := by
  refine ⟨?_, by decide⟩
  have hb := player_update_band p mu md dt hh
  simp only [HEIGHT, PLAYER_MARGIN_TOP_BOTTOM, Rect.top, Rect.bottom,
    Player.rect] at hb
  simp only [out_of_bounds_hit, Rect.top, Rect.bottom, Player.rect, HEIGHT,
    Bool.or_eq_false_iff, decide_eq_false_iff_not, not_le, ge_iff_le]
  omega

theorem out_of_bounds_test_never_fires_witness :
    out_of_bounds_hit (basePlayer.update true false 1) = false ∧
    out_of_bounds_hit { x := 0, y := 0, w := 100, h := 64 } = true :=
  out_of_bounds_test_never_fires basePlayer true false 1 (by decide)

/-- Memory game-over state carrying a score and a best level. -/
def memGOState : GState :=
  { baseState with state := Mode.memory_game_over, score := 5, mem_best_level := 7,
                   mem_level := 4 }

/-- Titanic game-over state carrying a score and a best level. -/
def titGOState : GState :=
  { baseState with state := Mode.titanic_game_over, score := 5, mem_best_level := 7 }

/-- `shrink_x` on a rect of the nominal obstacle width 120 yields the
    1px slit offset 59px into the 120px span. -/
theorem shrink_x_width120 (r : Rect) (hr : r.w = 120) :
    shrink_x r = { x := r.x + 59, y := r.y, w := 1, h := r.h } := by
  have h1 : pyInt (((120 : Int) : ℚ) * ICEBERG_HITBOX_SCALE_X) = 1 := by decide
  have h2 : Int.tdiv (-(120 - 1) : Int) 2 = -59 := by decide
  have h2b : Int.tdiv (-119 : Int) 2 = -59 := by decide
  have h3 : Int.tdiv (0 : Int) 2 = 0 := by decide
  simp only [shrink_x, hr, h1, Rect.inflate, Rect.mk.injEq]
  norm_num [h2, h2b, h3]

/-- `Player.collision_rect` shrinks the full rect by the truncated 20%
    of the width and height, splitting the shrink symmetrically. -/
theorem player_collision_rect_eq (p : Player) (hw : 0 ≤ p.w) (hh : 0 ≤ p.h) :
    p.collision_rect = { x := p.x + p.w / 5 / 2, y := p.y + p.h / 5 / 2,
                         w := p.w - p.w / 5, h := p.h - p.h / 5 } := by
  have cast5 : ∀ n : Int, 0 ≤ n → pyInt ((n : ℚ) * PLAYER_HITBOX_SHRINK) = n / 5 := by
    intro n hn
    unfold pyInt PLAYER_HITBOX_SHRINK
    rw [if_pos (mul_nonneg (by exact_mod_cast hn) (by norm_num)), mul_one_div]
    exact_mod_cast Rat.floor_intCast_div_natCast n 5
  have tneg : ∀ n : Int, 0 ≤ n → Int.tdiv (-n) 2 = -(n / 2) := by
    intro n hn
    rw [Int.neg_tdiv, Int.tdiv_eq_ediv hn (by norm_num)]
  have hw5 : 0 ≤ p.w / 5 := Int.ediv_nonneg hw (by norm_num)
  have hh5 : 0 ≤ p.h / 5 := Int.ediv_nonneg hh (by norm_num)
  simp only [Player.collision_rect, cast5 p.w hw, cast5 p.h hh, Player.rect,
    Rect.inflate, Rect.mk.injEq, tneg _ hw5, tneg _ hh5]
  omega

/-- C2: obstacle hit-testing uses 1px slits: for any obstacle pair of the
    nominal width 120, the collision rects are the drawn top/bottom rects
    with the width shrunk to 1px, offset 59px into the 120px span (so
    centered up to rounding); the avatar's collision rect is its full
    rect shrunk by the truncated 20% of its width and height, split
    symmetrically; concretely, an avatar whose shrunk rect overlaps the
    drawn width of `slitIb` but not its slit suffers no hit (lives stay
    3), while one crossing the slit is hit (lives drop to 2). -/
theorem iceberg_collision_slit (ib : IcebergPair) (p : Player)
    (hib : ib.width = PIPE_WIDTH) (hw : 0 ≤ p.w) (hh : 0 ≤ p.h) :
    (ib.collision_rects.1 = { x := ib.rects.1.x + 59, y := ib.rects.1.y,
                              w := 1, h := ib.rects.1.h } ∧
     ib.collision_rects.2 = { x := ib.rects.2.x + 59, y := ib.rects.2.y,
                              w := 1, h := ib.rects.2.h }) ∧
    p.collision_rect = { x := p.x + p.w / 5 / 2, y := p.y + p.h / 5 / 2,
                         w := p.w - p.w / 5, h := p.h - p.h / 5 } ∧
    (Rect.colliderect grazeState.player.collision_rect slitIb.rects.1 = true ∧
     Rect.colliderect grazeState.player.collision_rect slitIb.collision_rects.1 = false ∧
     Rect.colliderect grazeState.player.collision_rect slitIb.collision_rects.2 = false ∧
     (logic_tick grazeState 100 0 false false false false 0 270 0 constU).lives_left = 3 ∧
     (logic_tick grazeState 100 0 false false false false 0 270 0 constU).state
       = Mode.titanic_playing) ∧
    (Rect.colliderect slitHitState.player.collision_rect slitIb.collision_rects.1 = true ∧
     (logic_tick slitHitState 100 0 false false false false 0 270 0 constU).lives_left = 2 ∧
     (logic_tick slitHitState 100 0 false false false false 0 270 0 constU).state
       = Mode.titanic_playing) := by
  refine ⟨⟨?_, ?_⟩, player_collision_rect_eq p hw hh, by decide, by decide⟩
  · exact shrink_x_width120 ib.rects.1 hib
  · exact shrink_x_width120 ib.rects.2 hib

theorem iceberg_collision_slit_witness :
    slitIb.width = PIPE_WIDTH ∧
    slitIb.collision_rects.1 = { x := slitIb.rects.1.x + 59, y := slitIb.rects.1.y,
                                 w := 1, h := slitIb.rects.1.h } ∧
    grazeState.player.collision_rect
      = { x := grazeState.player.x + grazeState.player.w / 5 / 2,
          y := grazeState.player.y + grazeState.player.h / 5 / 2,
          w := grazeState.player.w - grazeState.player.w / 5,
          h := grazeState.player.h - grazeState.player.h / 5 } ∧
    (logic_tick slitHitState 100 0 false false false false 0 270 0 constU).lives_left = 2 :=
  ⟨by decide,
   (iceberg_collision_slit slitIb grazeState.player (by decide) (by decide)
      (by decide)).1.1,
   (iceberg_collision_slit slitIb grazeState.player (by decide) (by decide)
      (by decide)).2.1,
   (iceberg_collision_slit slitIb grazeState.player (by decide) (by decide)
      (by decide)).2.2.2.2.1⟩

/-- C4 (counterexample): committing to the obstacle game from the mode
    selector (a mode switch, not an explicit restart) resets the score
    from 5 to 0, so a selector → game → selector round trip through the
    obstacle game does not leave the score unchanged. -/
theorem mode_commit_resets_score :
    selectorScoreState.score = 5 ∧
    (logic_tick selectorScoreState 100 0 true false false false 0 270 0 constU).score
      = 0 ∧
    (logic_tick selectorScoreState 100 0 true false false false 0 270 0 constU).state
      = Mode.titanic_menu := by decide

/-- C4 (amended): abandoning either game-over screen to the selector
    preserves both the score and the memory best level; committing to
    the memory game from the selector preserves both as well; committing
    to the obstacle game preserves the best level but resets the score
    to 0 (via `reset_titanic`); and the memory game's explicit restart
    keeps the best level while resetting the level to 1.  Hence a round
    trip selector → memory game → selector changes neither counter,
    while committing to the obstacle game resets its score. -/
theorem mode_switch_preservation (s1 s2 s3 s4 s5 : GState)
    (shipW now : Int) (md2 ks ke : Bool) (dt : ℚ) (gapY : Int) (sp : ℚ)
    (sc : Nat → Sym)
    (h1 : s1.state = Mode.memory_game_over)
    (h2 : s2.state = Mode.titanic_game_over)
    (h3 : s3.state = Mode.mode_select)
    (h4 : s4.state = Mode.mode_select)
    (h5 : s5.state = Mode.memory_game_over) :
    ((keydown_tick s1 shipW now Key.m).score = s1.score ∧
     (keydown_tick s1 shipW now Key.m).mem_best_level = s1.mem_best_level ∧
     (keydown_tick s1 shipW now Key.m).state = Mode.mode_select) ∧
    ((keydown_tick s2 shipW now Key.m).score = s2.score ∧
     (keydown_tick s2 shipW now Key.m).mem_best_level = s2.mem_best_level ∧
     (keydown_tick s2 shipW now Key.m).state = Mode.mode_select) ∧
    ((logic_tick s3 shipW now false true ks ke dt gapY sp sc).score = s3.score ∧
     (logic_tick s3 shipW now false true ks ke dt gapY sp sc).mem_best_level
       = s3.mem_best_level ∧
     (logic_tick s3 shipW now false true ks ke dt gapY sp sc).state
       = Mode.memory_ready) ∧
    ((logic_tick s4 shipW now true md2 ks ke dt gapY sp sc).mem_best_level
       = s4.mem_best_level ∧
     (logic_tick s4 shipW now true md2 ks ke dt gapY sp sc).score = 0 ∧
     (logic_tick s4 shipW now true md2 ks ke dt gapY sp sc).state
       = Mode.titanic_menu) ∧
    ((keydown_tick s5 shipW now Key.space).mem_best_level = s5.mem_best_level ∧
     (keydown_tick s5 shipW now Key.space).mem_level = 1 ∧
     (keydown_tick s5 shipW now Key.space).state = Mode.memory_ready) := by
  refine ⟨?_, ?_, ?_, ?_, ?_⟩
  · simp [keydown_tick, h1]
  · simp [keydown_tick, h2, reset_titanic]
  · simp [logic_tick, h3, mode_select_tick, reset_memory]
  · simp [logic_tick, h4, mode_select_tick, reset_titanic]
  · simp [keydown_tick, h5, reset_memory]

theorem mode_switch_preservation_witness :
    ((keydown_tick memGOState 100 0 Key.m).score = memGOState.score ∧
     (keydown_tick memGOState 100 0 Key.m).mem_best_level
       = memGOState.mem_best_level ∧
     (keydown_tick memGOState 100 0 Key.m).state = Mode.mode_select) ∧
    ((keydown_tick titGOState 100 0 Key.m).score = titGOState.score ∧
     (keydown_tick titGOState 100 0 Key.m).mem_best_level
       = titGOState.mem_best_level ∧
     (keydown_tick titGOState 100 0 Key.m).state = Mode.mode_select) ∧
    ((logic_tick selectorScoreState 100 0 false true false false 0 270 0 constU).score
       = selectorScoreState.score ∧
     (logic_tick selectorScoreState 100 0 false true false false 0 270 0 constU).mem_best_level
       = selectorScoreState.mem_best_level ∧
     (logic_tick selectorScoreState 100 0 false true false false 0 270 0 constU).state
       = Mode.memory_ready) ∧
    ((logic_tick selectorScoreState 100 0 true false false false 0 270 0 constU).mem_best_level
       = selectorScoreState.mem_best_level ∧
     (logic_tick selectorScoreState 100 0 true false false false 0 270 0 constU).score = 0 ∧
     (logic_tick selectorScoreState 100 0 true false false false 0 270 0 constU).state
       = Mode.titanic_menu) ∧
    ((keydown_tick memGOState 100 0 Key.space).mem_best_level
       = memGOState.mem_best_level ∧
     (keydown_tick memGOState 100 0 Key.space).mem_level = 1 ∧
     (keydown_tick memGOState 100 0 Key.space).state = Mode.memory_ready) :=
  mode_switch_preservation memGOState titGOState selectorScoreState
    selectorScoreState memGOState 100 0 false false false 0 270 0 constU
    rfl rfl rfl rfl rfl

/-- C9 (counterexample): commitment from the mode selector is not
    edge-triggered: with the up input already held on the previous frame
    (so there is no rising edge this tick), holding up still commits to
    the obstacle game. -/
theorem mode_select_hold_commits :
    selectorHeldState.prev_move_up = true ∧
    (logic_tick selectorHeldState 100 0 true false false false 0 270 0 constU).state
      = Mode.titanic_menu := by decide

/-- C9 (amended): commitment from the mode selector is level-triggered
    on the held up/down signals, edges playing no role: if up is held
    this tick it commits to the obstacle game (via its menu) with
    `reset_titanic` applied; otherwise if down is held it commits to the
    sequence game with its state reset to level 1; with neither held the
    state is unchanged apart from the previous-press flags. -/
theorem mode_select_level_triggered (s : GState) (shipW now : Int)
    (md ks ke : Bool) (dt : ℚ) (gapY : Int) (sp : ℚ) (sc : Nat → Sym)
    (hstate : s.state = Mode.mode_select) :
    ((logic_tick s shipW now true md ks ke dt gapY sp sc).state
       = Mode.titanic_menu ∧
     (logic_tick s shipW now true md ks ke dt gapY sp sc).score = 0 ∧
     (logic_tick s shipW now true md ks ke dt gapY sp sc).lives_left
       = INITIAL_LIVES ∧
     (logic_tick s shipW now true md ks ke dt gapY sp sc).icebergs = [] ∧
     (logic_tick s shipW now true md ks ke dt gapY sp sc).player
       = create_player shipW) ∧
    ((logic_tick s shipW now false true ks ke dt gapY sp sc).state
       = Mode.memory_ready ∧
     (logic_tick s shipW now false true ks ke dt gapY sp sc).mem_level = 1 ∧
     (logic_tick s shipW now false true ks ke dt gapY sp sc).mem_sequence = [] ∧
     (logic_tick s shipW now false true ks ke dt gapY sp sc).mem_player_inputs
       = []) ∧
    logic_tick s shipW now false false ks ke dt gapY sp sc
      = { s with prev_move_up := false, prev_move_down := false } := by
  refine ⟨?_, ?_, ?_⟩ <;>
    simp [logic_tick, hstate, mode_select_tick, reset_titanic, reset_memory]

theorem mode_select_level_triggered_witness :
    ((logic_tick baseState 100 0 true false false false 0 270 0 constU).state
       = Mode.titanic_menu ∧
     (logic_tick baseState 100 0 true false false false 0 270 0 constU).score = 0 ∧
     (logic_tick baseState 100 0 true false false false 0 270 0 constU).lives_left
       = INITIAL_LIVES ∧
     (logic_tick baseState 100 0 true false false false 0 270 0 constU).icebergs = [] ∧
     (logic_tick baseState 100 0 true false false false 0 270 0 constU).player
       = create_player 100) ∧
    ((logic_tick baseState 100 0 false true false false 0 270 0 constU).state
       = Mode.memory_ready ∧
     (logic_tick baseState 100 0 false true false false 0 270 0 constU).mem_level = 1 ∧
     (logic_tick baseState 100 0 false true false false 0 270 0 constU).mem_sequence
       = [] ∧
     (logic_tick baseState 100 0 false true false false 0 270 0 constU).mem_player_inputs
       = []) ∧
    logic_tick baseState 100 0 false false false false 0 270 0 constU
      = { baseState with prev_move_up := false, prev_move_down := false } :=
  mode_select_level_triggered baseState 100 0 false false false 0 270 0 constU rfl

/-- In the `memory_input` state, a logic tick is the input-branch step
    with the derived rising edges, plus the previous-press update. -/
theorem logic_tick_memory_input (s : GState) (shipW now : Int)
    (mu md ks ke : Bool) (dt : ℚ) (gapY : Int) (sp : ℚ) (sc : Nat → Sym)
    (hstate : s.state = Mode.memory_input) :
    logic_tick s shipW now mu md ks ke dt gapY sp sc =
      { memory_input_tick s now (mu && !s.prev_move_up) (md && !s.prev_move_down)
        with prev_move_up := mu, prev_move_down := md } := by
  simp only [logic_tick, hstate]

/-- Membership in the mismatch list is exactly an index below the
    sequence length where input and sequence disagree. -/
theorem memory_mismatch_mem (inputs seq : List Sym) (i : Nat) :
    i ∈ memory_mismatch inputs seq ↔
      i < seq.length ∧ inputs.getD i Sym.U ≠ seq.getD i Sym.U := by
  simp [memory_mismatch, List.mem_filter, List.mem_range]

/-- C1: in the memory input phase, once the accepted press `c` makes the
    buffer reach the sequence length, the round is evaluated
    element-wise: if some index differs, the state becomes
    `memory_game_over`, the best level becomes
    max(best, max(level − 1, 0)), and the mismatch positions are exactly
    the differing indices; if every index matches, the state becomes
    `memory_success`, the best level becomes max(best, level) and the
    level increments by exactly 1. -/
theorem memory_round_evaluation (s : GState) (shipW now : Int)
    (mu md ks ke : Bool) (dt : ℚ) (gapY : Int) (sp : ℚ) (sc : Nat → Sym) (c : Sym)
    (hstate : s.state = Mode.memory_input)
    (hdeb : now - s.mem_last_input_time ≥ MEM_DEBOUNCE_MS)
    (hc : (if mu && !s.prev_move_up then some Sym.U
           else if md && !s.prev_move_down then some Sym.D else none) = some c)
    (hlen : s.mem_player_inputs.length + 1 = s.mem_sequence.length) :
    ((∃ i, i < s.mem_sequence.length ∧
        (s.mem_player_inputs ++ [c]).getD i Sym.U ≠ s.mem_sequence.getD i Sym.U) →
      (logic_tick s shipW now mu md ks ke dt gapY sp sc).state
          = Mode.memory_game_over ∧
      (logic_tick s shipW now mu md ks ke dt gapY sp sc).mem_best_level
          = max s.mem_best_level (max (s.mem_level - 1) 0) ∧
      (∀ i : Nat,
        i ∈ (logic_tick s shipW now mu md ks ke dt gapY sp sc).mem_mismatch_positions
          ↔ i < s.mem_sequence.length ∧
            (s.mem_player_inputs ++ [c]).getD i Sym.U
              ≠ s.mem_sequence.getD i Sym.U)) ∧
    ((∀ i, i < s.mem_sequence.length →
        (s.mem_player_inputs ++ [c]).getD i Sym.U = s.mem_sequence.getD i Sym.U) →
      (logic_tick s shipW now mu md ks ke dt gapY sp sc).state
          = Mode.memory_success ∧
      (logic_tick s shipW now mu md ks ke dt gapY sp sc).mem_best_level
          = max s.mem_best_level s.mem_level ∧
      (logic_tick s shipW now mu md ks ke dt gapY sp sc).mem_level
          = s.mem_level + 1) := by
  rw [logic_tick_memory_input s shipW now mu md ks ke dt gapY sp sc hstate]
  simp only [memory_input_tick, if_pos hdeb, hc]
  have hge : (s.mem_player_inputs ++ [c]).length ≥ s.mem_sequence.length := by
    simp only [List.length_append, List.length_cons, List.length_nil]
    omega
  rw [if_pos hge]
  constructor
  · rintro ⟨i, hi, hne⟩
    have hmem : i ∈ memory_mismatch (s.mem_player_inputs ++ [c]) s.mem_sequence :=
      (memory_mismatch_mem _ _ i).2 ⟨hi, hne⟩
    have hnn : memory_mismatch (s.mem_player_inputs ++ [c]) s.mem_sequence ≠ [] :=
      List.ne_nil_of_mem hmem
    rw [if_pos hnn]
    refine ⟨rfl, ?_, ?_⟩
    · show max s.mem_best_level (if s.mem_level - 1 < 0 then 0 else s.mem_level - 1)
        = max s.mem_best_level (max (s.mem_level - 1) 0)
      split_ifs <;> omega
    · intro j
      exact memory_mismatch_mem _ _ j
  · intro hall
    have hnil : memory_mismatch (s.mem_player_inputs ++ [c]) s.mem_sequence = [] := by
      refine List.eq_nil_iff_forall_not_mem.2 ?_
      intro j hj
      rcases (memory_mismatch_mem _ _ j).1 hj with ⟨hjl, hjne⟩
      exact hjne (hall j hjl)
    rw [if_neg (not_not_intro hnil)]
    exact ⟨rfl, rfl, rfl⟩

theorem memory_round_evaluation_witness :
    memRoundState.mem_sequence = [Sym.U, Sym.D, Sym.U] ∧
    memRoundState.mem_player_inputs ++ [Sym.U] = [Sym.U, Sym.U, Sym.U] ∧
    (logic_tick memRoundState 100 1000 true false false false 0 0 0 constU).state
      = Mode.memory_game_over ∧
    (logic_tick memRoundState 100 1000 true false false false 0 0 0 constU).mem_best_level
      = max memRoundState.mem_best_level (max (memRoundState.mem_level - 1) 0) ∧
    (1 ∈ (logic_tick memRoundState 100 1000 true false false false 0 0 0
            constU).mem_mismatch_positions
      ↔ 1 < memRoundState.mem_sequence.length ∧
        (memRoundState.mem_player_inputs ++ [Sym.U]).getD 1 Sym.U
          ≠ memRoundState.mem_sequence.getD 1 Sym.U) ∧
    (logic_tick memRoundState 100 1000 true false false false 0 0 0
        constU).mem_mismatch_positions = [1] := by
  have h := memory_round_evaluation memRoundState 100 1000 true false false false
    0 0 0 constU Sym.U rfl (by decide) (by decide) (by decide)
  have h1 := h.1 ⟨1, by decide, by decide⟩
  exact ⟨by decide, by decide, h1.1, h1.2.1, h1.2.2 1, by decide⟩

/-- C5: in the memory input phase a rising edge is accepted exactly when
    at least the 200ms debounce window has elapsed since the last
    accepted input (the comparison is ≥): an accepted press appends one
    symbol and restamps the debounce clock to `now`, while a press
    inside the window leaves both the buffer and the stamp unchanged
    (dropped, not queued).  Concretely, presses at 1000ms and 1150ms
    (150ms apart) yield one buffered symbol, while presses at 1000ms and
    1200ms (exactly 200ms apart) yield two. -/
theorem memory_debounce (s : GState) (shipW now : Int)
    (mu md ks ke : Bool) (dt : ℚ) (gapY : Int) (sp : ℚ) (sc : Nat → Sym)
    (hstate : s.state = Mode.memory_input)
    (hpress : (mu && !s.prev_move_up) = true ∨ (md && !s.prev_move_down) = true) :
    (now - s.mem_last_input_time ≥ MEM_DEBOUNCE_MS →
      (logic_tick s shipW now mu md ks ke dt gapY sp sc).mem_player_inputs.length
          = s.mem_player_inputs.length + 1 ∧
      (logic_tick s shipW now mu md ks ke dt gapY sp sc).mem_last_input_time
          = now) ∧
    (¬ (now - s.mem_last_input_time ≥ MEM_DEBOUNCE_MS) →
      (logic_tick s shipW now mu md ks ke dt gapY sp sc).mem_player_inputs
          = s.mem_player_inputs ∧
      (logic_tick s shipW now mu md ks ke dt gapY sp sc).mem_last_input_time
          = s.mem_last_input_time) ∧
    (mtick (mtick (mtick memInputState 1000 true false) 1100 false false)
        1150 true false).mem_player_inputs = [Sym.U] ∧
    (mtick (mtick (mtick memInputState 1000 true false) 1100 false false)
        1200 true false).mem_player_inputs = [Sym.U, Sym.U] := by
  rw [logic_tick_memory_input s shipW now mu md ks ke dt gapY sp sc hstate]
  refine ⟨?_, ?_, by decide, by decide⟩
  · intro hdeb
    simp only [memory_input_tick, if_pos hdeb]
    rcases hpress with h | h
    · rw [h]
      simp only [if_true]
      split_ifs <;> simp [List.length_append]
    · cases hup : (mu && !s.prev_move_up) with
      | true =>
        simp only [if_true]
        split_ifs <;> simp [List.length_append]
      | false =>
        rw [h]
        simp only [Bool.false_eq_true, if_false, if_true]
        split_ifs <;> simp [List.length_append]
  · intro hdeb
    simp only [memory_input_tick, if_neg hdeb]
    exact ⟨trivial, trivial⟩

theorem memory_debounce_witness :
    ((1000 : Int) - memInputState.mem_last_input_time ≥ MEM_DEBOUNCE_MS) ∧
    (logic_tick memInputState 100 1000 true false false false 0 0 0
        constU).mem_player_inputs.length
      = memInputState.mem_player_inputs.length + 1 ∧
    (logic_tick memInputState 100 1000 true false false false 0 0 0
        constU).mem_last_input_time = 1000 ∧
    (mtick (mtick (mtick memInputState 1000 true false) 1100 false false)
        1150 true false).mem_player_inputs = [Sym.U] := by
  have h := memory_debounce memInputState 100 1000 true false false false 0 0 0
    constU rfl (Or.inl (by decide))
  have ha := h.1 (by decide)
  exact ⟨by decide, ha.1, ha.2, h.2.2.1⟩

/-- C10: in the memory input phase at most one symbol is appended per
    tick, and when rising up and down edges occur in the same tick with
    the debounce window elapsed, the appended symbol is `U`: the up edge
    takes strict priority and the down press is discarded. -/
theorem memory_input_priority (s : GState) (shipW now : Int)
    (mu md ks ke : Bool) (dt : ℚ) (gapY : Int) (sp : ℚ) (sc : Nat → Sym)
    (hstate : s.state = Mode.memory_input) :
    ((logic_tick s shipW now mu md ks ke dt gapY sp sc).mem_player_inputs
        = s.mem_player_inputs ∨
      ∃ c, (logic_tick s shipW now mu md ks ke dt gapY sp sc).mem_player_inputs
        = s.mem_player_inputs ++ [c]) ∧
    (mu = true → s.prev_move_up = false → md = true → s.prev_move_down = false →
      now - s.mem_last_input_time ≥ MEM_DEBOUNCE_MS →
      (logic_tick s shipW now mu md ks ke dt gapY sp sc).mem_player_inputs
        = s.mem_player_inputs ++ [Sym.U]) := by
  rw [logic_tick_memory_input s shipW now mu md ks ke dt gapY sp sc hstate]
  constructor
  · by_cases hdeb : now - s.mem_last_input_time ≥ MEM_DEBOUNCE_MS
    · simp only [memory_input_tick, if_pos hdeb]
      cases hup : (mu && !s.prev_move_up) with
      | true =>
        refine Or.inr ⟨Sym.U, ?_⟩
        simp only [if_true]
        split_ifs <;> rfl
      | false =>
        cases hdn : (md && !s.prev_move_down) with
        | true =>
          refine Or.inr ⟨Sym.D, ?_⟩
          simp only [Bool.false_eq_true, if_false, if_true]
          split_ifs <;> rfl
        | false =>
          exact Or.inl rfl
    · simp only [memory_input_tick, if_neg hdeb]
      exact Or.inl trivial
  · intro hmu hpu hmd hpd hdeb
    simp only [memory_input_tick, if_pos hdeb, hmu, hpu]
    simp only [Bool.not_false, Bool.and_self, if_true]
    split_ifs <;> rfl

theorem memory_input_priority_witness :
    ((logic_tick memInputState 100 1000 true true false false 0 0 0
        constU).mem_player_inputs = memInputState.mem_player_inputs ∨
      ∃ c, (logic_tick memInputState 100 1000 true true false false 0 0 0
        constU).mem_player_inputs = memInputState.mem_player_inputs ++ [c]) ∧
    (logic_tick memInputState 100 1000 true true false false 0 0 0
        constU).mem_player_inputs = memInputState.mem_player_inputs ++ [Sym.U] := by
  have h := memory_input_priority memInputState 100 1000 true true false false
    0 0 0 constU rfl
  exact ⟨h.1, h.2 rfl rfl rfl rfl (by decide)⟩

end PygameRaspberry

